import Mathlib

/-!
Verification of the AudioScrobeAI backend (shallow embedding).

The definitions below are translated from the repository sources:
  - src/models/*.py        : the SQLAlchemy entity declarations (records,
    enumerations, foreign keys and the declared cascade rules),
  - src/database/health_check.py : the readiness checker,
  - src/routers/*.py       : the CRUD endpoints the claims mention,
  - src/services/audio_service.py : the audio service,
  - src/schemas/ai_model.py : the pydantic input validation for AI models.

Database rows are modelled as Lean structures; the persisted store is a
record of lists of rows.  Columns that the application code may leave unset
are modelled as `Option` fields; the NOT NULL declarations of the schema are
captured by separate decidable predicates.  Delete cascades implement the
`ondelete` rules declared on the foreign keys.  External effects (the
database driver, the migration subprocess, `os.getenv`) are modelled as
explicit inputs in a `World` record.
-/

/-- Health status values used by every check in
src/database/health_check.py: "healthy", "warning", "unhealthy". -/
inductive HealthStatus where
  | healthy
  | warning
  | unhealthy
deriving DecidableEq

/-- Upload status enumeration from src/models/enums.py (class Status). -/
inductive Status where
  | uploaded
  | processing
  | done
  | error
deriving DecidableEq

/-- Job status enumeration from src/models/enums.py (class ProcessingStatus). -/
inductive ProcessingStatus where
  | pending
  | in_progress
  | completed
  | failed
deriving DecidableEq

/-- Operation enumeration from src/models/ai_models.py (class Operation). -/
inductive Operation where
  | transcription
  | translation
  | summary
deriving DecidableEq

/-- The string value of each Operation member, as declared in
src/models/ai_models.py (each member's value equals its name). -/
def operationToString : Operation → String
  | .transcription => "transcription"
  | .translation => "translation"
  | .summary => "summary"

/-- Row of the "users" table (src/models/users.py). -/
structure UserRec where
  id : Nat
  username : String
  password_hash : String
  is_admin : Bool
deriving DecidableEq

/-- Row of the "audio_files" table (src/models/audio_files.py).
Columns the application code may leave unset are `Option`; the `add_time`
column (a server-side timestamp default) is outside the embedding. -/
structure AudioFileRec where
  id : Nat
  user_id : Option Nat
  filename : Option String
  original_filename : Option String
  filepath : Option String
  format : Option String
  file_size : Option Nat
  duration : Option Rat
  status : Option Status
  error_text : Option String
deriving DecidableEq

/-- Row of the "transcriptions" table (src/models/transcriptions.py).
The `created_at` and `updated_at` timestamp columns are outside the
embedding. -/
structure TranscriptionRec where
  id : Nat
  audio_file_id : Nat
  ai_model_id : Option Nat
  language : Option String
  text_transcription : Option String
  start_time : Option Rat
  end_time : Option Rat
  status : Option ProcessingStatus
  error_text : Option String
  confidence : Option Rat
deriving DecidableEq

/-- Row of the "translations" table (src/models/translations.py). -/
structure TranslationRec where
  id : Nat
  transcription_id : Nat
  ai_model_id : Option Nat
  text_translation_en : Option String
  text_translation_ru : Option String
  start_time : Option Rat
  end_time : Option Rat
  status : Option ProcessingStatus
  error_text : Option String
  confidence : Option Rat
deriving DecidableEq

/-- Row of the "summaries" table (src/models/summaries.py). -/
structure SummaryRec where
  id : Nat
  translation_id : Nat
  ai_model_id : Option Nat
  text_summary_en : Option String
  text_summary_ru : Option String
  start_time : Option Rat
  end_time : Option Rat
  status : Option ProcessingStatus
  error_text : Option String
deriving DecidableEq

/-- Row of the "ai_models" table (src/models/ai_models.py).  The
`operation` column is the native enum, so a stored row always carries one
of the three Operation values. -/
structure AIModelRec where
  id : Nat
  model_name : String
  model_path : String
  operation : Operation
deriving DecidableEq

/-- The persisted relational store: one list of rows per declared table. -/
structure Store where
  users : List UserRec
  audioFiles : List AudioFileRec
  transcriptions : List TranscriptionRec
  translations : List TranslationRec
  summaries : List SummaryRec
  aiModels : List AIModelRec
deriving DecidableEq

/-- The empty store. -/
def Store.empty : Store :=
  { users := [], audioFiles := [], transcriptions := [], translations := [],
    summaries := [], aiModels := [] }

/-- The NOT NULL declarations of the "transcriptions" table
(src/models/transcriptions.py): `audio_file_id`, `ai_model_id`, `language`,
`text_transcription`, `start_time`, `end_time` and `status` are mapped as
non-optional columns. -/
def transcriptionRowNotNull (t : TranscriptionRec) : Bool :=
  t.ai_model_id.isSome && t.language.isSome && t.text_transcription.isSome
    && t.start_time.isSome && t.end_time.isSome && t.status.isSome

/-- Cascade removal of translation rows with the given ids, together with
the summary rows that reference them.  Implements the rule declared in
src/models/translations.py: `summaries.translation_id` has
`ondelete="CASCADE"` (and the relationship `cascade="all, delete-orphan"`),
so deleting a translation removes its summaries. -/
def deleteTranslationRows (s : Store) (tlIds : List Nat) : Store :=
  { s with
    translations := s.translations.filter (fun t => t.id ∉ tlIds)
    summaries := s.summaries.filter (fun m => m.translation_id ∉ tlIds) }

/-- Cascade removal of transcription rows with the given ids.  Implements
the rule declared in src/models/transcriptions.py: deleting a transcription
cascades to the translations referencing it (`ondelete="CASCADE"` on
`translations.transcription_id`), which in turn cascade to their
summaries. -/
def deleteTranscriptionRows (s : Store) (trIds : List Nat) : Store :=
  let tlIds := (s.translations.filter (fun t => t.transcription_id ∈ trIds)).map (fun t => t.id)
  let s' := deleteTranslationRows s tlIds
  { s' with transcriptions := s'.transcriptions.filter (fun t => t.id ∉ trIds) }

/-- Cascade removal of an audio file row.  Implements the rule declared in
src/models/audio_files.py: deleting an audio file cascades to the
transcriptions referencing it (`ondelete="CASCADE"` on
`transcriptions.audio_file_id`), and transitively down the chain. -/
def deleteAudioFileRow (s : Store) (fid : Nat) : Store :=
  let trIds := (s.transcriptions.filter (fun t => t.audio_file_id = fid)).map (fun t => t.id)
  let s' := deleteTranscriptionRows s trIds
  { s' with audioFiles := s'.audioFiles.filter (fun a => a.id ≠ fid) }

/-- DELETE handler for a user (src/routers/users.py, delete_user): look the
user up by id, answer 404 if absent, otherwise delete the row.  The
`audio_files.user_id` foreign key is declared with `ondelete="SET NULL"`
(src/models/audio_files.py) and the relationship on the User side sets
`passive_deletes=True` (src/models/users.py), so the database clears the
owner reference of the owned audio files instead of deleting them. -/
def delete_user (s : Store) (uid : Nat) : Except Nat Store :=
  match s.users.find? (fun u => u.id == uid) with
  | none => .error 404
  | some _ =>
      .ok { s with
        users := s.users.filter (fun u => u.id ≠ uid)
        audioFiles := s.audioFiles.map (fun a =>
          if a.user_id = some uid then { a with user_id := none } else a) }

/-- Request body for creating a transcription
(src/routers/transcriptions.py, class TranscriptionCreate): only an
`audio_file_id` and a `language` field; there is no AI model field. -/
structure TranscriptionCreate where
  audio_file_id : Nat
  language : String
deriving DecidableEq

/-- Fresh primary key for the transcriptions table, modelling the
sequence-backed SERIAL column. -/
def nextTranscriptionId (s : Store) : Nat :=
  (s.transcriptions.map (fun t => t.id)).foldr max 0 + 1

/-- POST handler for transcriptions (src/routers/transcriptions.py,
create_transcription): look up the referenced audio file, answer 404 if it
is absent, otherwise build a Transcription with only `audio_file_id`,
`language` and `status = PENDING` set, add and commit it.  No other lookup
is performed before the insert. -/
def create_transcription (s : Store) (req : TranscriptionCreate) :
    Except Nat TranscriptionRec × Store :=
  match s.audioFiles.find? (fun a => a.id == req.audio_file_id) with
  | none => (.error 404, s)
  | some _ =>
      let row : TranscriptionRec :=
        { id := nextTranscriptionId s
          audio_file_id := req.audio_file_id
          ai_model_id := none
          language := some req.language
          text_transcription := none
          start_time := none
          end_time := none
          status := some .pending
          error_text := none
          confidence := none }
      (.ok row, { s with transcriptions := s.transcriptions ++ [row] })

/-- DELETE handler for a transcription (src/routers/transcriptions.py,
delete_transcription): 404 if absent, otherwise delete the row, cascading
per the declared rules. -/
def delete_transcription (s : Store) (tid : Nat) : Except Nat Store :=
  match s.transcriptions.find? (fun t => t.id == tid) with
  | none => .error 404
  | some _ => .ok (deleteTranscriptionRows s [tid])

/-- DELETE of a translation row, cascading per the declared rules
(src/routers/translations.py follows the same 404-or-delete shape). -/
def delete_translation (s : Store) (tid : Nat) : Except Nat Store :=
  match s.translations.find? (fun t => t.id == tid) with
  | none => .error 404
  | some _ => .ok (deleteTranslationRows s [tid])

/-- Lookup of a Status member by value, as performed by `Status(status)` in
src/services/audio_service.py; the enum values are declared in
src/models/enums.py. -/
def statusOfString (s : String) : Option Status :=
  if s = "uploaded" then some .uploaded
  else if s = "processing" then some .processing
  else if s = "done" then some .done
  else if s = "error" then some .error
  else none

/-- Fresh primary key for the audio_files table. -/
def nextAudioFileId (s : Store) : Nat :=
  (s.audioFiles.map (fun a => a.id)).foldr max 0 + 1

/-- AudioService.create_audio_record (src/services/audio_service.py):
`Status(status)` is wrapped in try/except, and any failure of the value
lookup falls back to `Status.UPLOADED`; the record is then built with the
given fields (filepath and format are never set) and committed. -/
def create_audio_record (s : Store) (filename original_filename : String)
    (file_size : Nat) (user_id : Option Nat) (duration : Option Rat)
    (status : String) : AudioFileRec × Store :=
  let status_enum := (statusOfString status).getD .uploaded
  let row : AudioFileRec :=
    { id := nextAudioFileId s
      user_id := user_id
      filename := some filename
      original_filename := some original_filename
      filepath := none
      format := none
      file_size := some file_size
      duration := duration
      status := some status_enum
      error_text := none }
  (row, { s with audioFiles := s.audioFiles ++ [row] })

/-- Lookup of an Operation by its literal value, embedding the pydantic
`Literal["transcription", "translation", "summary"]` validation of
src/schemas/ai_model.py: any other string is rejected. -/
def operationOfString (s : String) : Option Operation :=
  if s = "transcription" then some .transcription
  else if s = "translation" then some .translation
  else if s = "summary" then some .summary
  else none

/-- Validated AIModelCreate input (src/schemas/ai_model.py). -/
structure AIModelCreate where
  model_name : String
  model_path : String
  operation : Operation
deriving DecidableEq

/-- Input validation for AIModelCreate (src/schemas/ai_model.py): the
`operation` field must be one of the three literals, otherwise the request
is rejected by pydantic before any insert can happen. -/
def validate_ai_model_create (model_name model_path operation : String) :
    Option AIModelCreate :=
  (operationOfString operation).map (fun op =>
    { model_name := model_name, model_path := model_path, operation := op })

/-- Result shape shared by the health checks of
src/database/health_check.py: a status and a message (structured details
that a claim depends on are carried by dedicated result types below). -/
structure CheckResult where
  status : HealthStatus
  message : String
deriving DecidableEq

/-- Result of check_and_create_superadmin: status plus the `action_taken`
detail field ("none", "created" or "failed"). -/
structure SuperadminResult where
  status : HealthStatus
  superadmin_exists : Option Bool
  user_id : Option Nat
  action_taken : String
deriving DecidableEq

/-- Uniqueness of the `users.username` column, declared with
`unique=True` in src/models/users.py: no two rows share a username. -/
def usernamesUniqueB : List UserRec → Bool
  | [] => true
  | u :: rest => rest.all (fun v => v.username ≠ u.username) && usernamesUniqueB rest

/-- Fresh primary key for the users table. -/
def nextUserId (s : Store) : Nat :=
  (s.users.map (fun u => u.id)).foldr max 0 + 1

/-- ApplicationHealthChecker.check_and_create_superadmin
(src/database/health_check.py): query for a user with username
"superadmin" AND the admin flag set; if found, report healthy with
action_taken "none"; otherwise insert a new admin user named "superadmin"
with password "superadmin".  The insert hits the unique constraint on
`users.username` when a row with that username already exists; the raised
SQLAlchemyError is caught and reported as unhealthy with action_taken
"failed", leaving the store unchanged.  Password hashing
(src/utils/security.py) delegates to an external bcrypt library and is
passed in as `hashPassword`. -/
def check_and_create_superadmin (hashPassword : String → String) (s : Store) :
    SuperadminResult × Store :=
  match s.users.find? (fun u => u.username == "superadmin" && u.is_admin) with
  | some u =>
      ({ status := .healthy, superadmin_exists := some true,
         user_id := some u.id, action_taken := "none" }, s)
  | none =>
      if s.users.any (fun u => u.username == "superadmin") then
        ({ status := .unhealthy, superadmin_exists := none,
           user_id := none, action_taken := "failed" }, s)
      else
        let newUser : UserRec :=
          { id := nextUserId s
            username := "superadmin"
            password_hash := hashPassword "superadmin"
            is_admin := true }
        ({ status := .healthy, superadmin_exists := some false,
           user_id := some newUser.id, action_taken := "created" },
         { s with users := s.users ++ [newUser] })

/-- Environment variables visible to the process, modelling `os.getenv`. -/
def Env := List (String × String)

/-- The os.getenv lookup over the modelled environment. -/
def Env.getenv (e : Env) (name : String) : Option String :=
  (e.find? (fun p => p.1 == name)).map (fun p => p.2)

/-- Python str.strip() — whitespace removed from both ends — written over
the character data so that concrete instances evaluate. -/
def pyStrip (s : String) : String :=
  ⟨((s.data.dropWhile Char.isWhitespace).reverse.dropWhile
      Char.isWhitespace).reverse⟩

/-- Python str.lower(), written over the character data so that concrete
instances evaluate. -/
def pyLower (s : String) : String :=
  ⟨s.data.map Char.toLower⟩

/-- The fixed list of required configuration keys from
ApplicationHealthChecker.__init__ (src/database/health_check.py). -/
def requiredEnvVars : List String :=
  ["POSTGRES_DB", "POSTGRES_USER", "POSTGRES_PASSWORD", "DB_HOST",
   "SECRET_KEY", "DEBUG", "APP_ENV"]

/-- ApplicationHealthChecker.check_environment_variables
(src/database/health_check.py): a variable that is absent is collected as
missing, one that is present but blank after stripping is collected as
empty; any missing or empty variable makes the result unhealthy. -/
def check_environment_variables (e : Env) : CheckResult :=
  let missing_vars := requiredEnvVars.filter (fun v => (e.getenv v).isNone)
  let empty_vars := requiredEnvVars.filter (fun v =>
    match e.getenv v with
    | some value => pyStrip value = ""
    | none => false)
  if missing_vars.isEmpty && empty_vars.isEmpty then
    { status := .healthy
      message := "Все необходимые переменные окружения установлены" }
  else
    let msgs :=
      (if missing_vars.isEmpty then [] else
        ["Отсутствуют переменные: " ++ String.intercalate ", " missing_vars]) ++
      (if empty_vars.isEmpty then [] else
        ["Пустые переменные: " ++ String.intercalate ", " empty_vars])
    { status := .unhealthy, message := String.intercalate "; " msgs }

/-- ApplicationHealthChecker.check_application_settings
(src/database/health_check.py): APP_ENV (lower-cased, defaulting to "")
must be development/production/testing, SECRET_KEY must be at least 32
characters, DEBUG (lower-cased) must be true/false; issues accumulate into
a warning, never an unhealthy result. -/
def check_application_settings (e : Env) : CheckResult :=
  let app_env := pyLower ((e.getenv "APP_ENV").getD "")
  let issues₁ : List String :=
    if app_env ∈ ["development", "production", "testing"] then []
    else ["Некорректное значение APP_ENV: " ++ app_env]
  let secret_key := (e.getenv "SECRET_KEY").getD ""
  let issues₂ : List String :=
    if secret_key.length < 32 then
      ["SECRET_KEY слишком короткий (минимум 32 символа)"]
    else []
  let debug := pyLower ((e.getenv "DEBUG").getD "")
  let issues₃ : List String :=
    if debug ∈ ["true", "false"] then []
    else ["Некорректное значение DEBUG: " ++ debug]
  let issues := issues₁ ++ issues₂ ++ issues₃
  if issues.isEmpty then
    { status := .healthy, message := "Настройки приложения корректны" }
  else
    { status := .warning
      message := "Найдены проблемы с настройками: " ++ toString issues.length }

/-- Outcome of the trivial round-trip query SELECT 1 run by
check_database_connection: the row came back as 1, the row was missing or
unexpected, or the driver raised a SQLAlchemyError. -/
inductive ConnOutcome where
  | ok
  | badRow
  | err (msg : String)
deriving DecidableEq

/-- ApplicationHealthChecker.check_database_connection
(src/database/health_check.py). -/
def check_database_connection (c : ConnOutcome) : CheckResult :=
  match c with
  | .ok =>
      { status := .healthy
        message := "Подключение к базе данных работает корректно" }
  | .badRow =>
      { status := .unhealthy
        message := "Неожиданный результат тестового запроса" }
  | .err e =>
      { status := .unhealthy
        message := "Ошибка подключения к базе данных: " ++ e }

/-- The tables the schema model declares: the `__tablename__` of every
mapped subclass of Base (src/models/*.py); the `additional_tables` list in
check_database_tables is empty. -/
def expectedTables : List String :=
  ["users", "ai_models", "audio_files", "transcriptions", "translations",
   "summaries"]

/-- Result of check_database_tables: status plus the detail lists the
orchestrator inspects. -/
structure TablesResult where
  status : HealthStatus
  message : String
  missing_tables : List String
  extra_tables : List String
deriving DecidableEq

/-- ApplicationHealthChecker.check_database_tables
(src/database/health_check.py): compare the declared tables against the
tables present in the store; healthy when nothing is missing, warning
otherwise; extra tables are only recorded in the details; an inspection
error yields unhealthy. -/
def check_database_tables (existing : List String)
    (inspectErr : Option String) : TablesResult :=
  match inspectErr with
  | some e =>
      { status := .unhealthy
        message := "Ошибка при проверке таблиц: " ++ e
        missing_tables := [], extra_tables := [] }
  | none =>
      let missing_tables := expectedTables.filter (fun t => t ∉ existing)
      let extra_tables := existing.filter (fun t => t ∉ expectedTables)
      let base_message := "Найдено " ++ toString existing.length ++ " таблиц"
      if missing_tables.isEmpty then
        { status := .healthy, message := base_message
          missing_tables := missing_tables, extra_tables := extra_tables }
      else
        { status := .warning
          message := base_message ++ ", отсутствуют: "
            ++ String.intercalate ", " missing_tables
          missing_tables := missing_tables, extra_tables := extra_tables }

/-- Outcome of the `alembic upgrade head` subprocess launched by
run_database_migrations: a normal exit with a code and captured output, a
timeout after 300 seconds, or an unexpected exception. -/
inductive MigrationOutcome where
  | exited (code : Int) (stdout stderr : String)
  | timedOut
  | exn (msg : String)
deriving DecidableEq

/-- ApplicationHealthChecker.run_database_migrations
(src/database/health_check.py): healthy exactly on exit code 0; a non-zero
exit, a timeout and an exception are each unhealthy with distinct
messages. -/
def run_database_migrations (m : MigrationOutcome) : CheckResult :=
  match m with
  | .exited code _ stderr =>
      if code = 0 then
        { status := .healthy
          message := "Миграции базы данных выполнены успешно" }
      else
        { status := .unhealthy
          message := "Ошибка выполнения миграций: " ++ stderr }
  | .timedOut =>
      { status := .unhealthy
        message := "Таймаут выполнения миграций (5 минут)" }
  | .exn e =>
      { status := .unhealthy
        message := "Неожиданная ошибка при выполнении миграций: " ++ e }

/-- Result of ensure_database_ready: status, message, and the
`action_taken` detail field where the source sets one. -/
structure ReadyResult where
  status : HealthStatus
  message : String
  action_taken : Option String
deriving DecidableEq

/-- Outcome of the throwaway temp-table write probe used by
check_database_permissions: `none` means the probe succeeded, `some e`
that the driver raised. -/
def PermOutcome := Option String

/-- ApplicationHealthChecker.check_database_permissions
(src/database/health_check.py). -/
def check_database_permissions (p : PermOutcome) : CheckResult :=
  match p with
  | none =>
      { status := .healthy
        message := "Права доступа к базе данных достаточны" }
  | some e =>
      { status := .unhealthy
        message := "Недостаточно прав доступа: " ++ e }

/-- The external collaborators of the readiness checker, made explicit:
the process environment, the database driver outcomes, the current table
set of the store (and the table set a migration run would produce), the
migration subprocess outcome, the write-probe outcome and the persisted
store.  `hashPassword` stands for the external bcrypt library. -/
structure World where
  env : Env
  conn : ConnOutcome
  tables : List String
  inspectErr : Option String
  migration : MigrationOutcome
  migratedTables : List String
  migratedInspectErr : Option String
  perms : PermOutcome
  store : Store
  hashPassword : String → String

/-- Running the migration subprocess transitions the table set of the
store to the post-migration one. -/
def World.afterMigrations (w : World) : World :=
  { w with tables := w.migratedTables, inspectErr := w.migratedInspectErr }

/-- ApplicationHealthChecker.ensure_database_ready
(src/database/health_check.py): the connection check must be healthy or
the whole check short-circuits unhealthy; with a healthy tables check it
reports healthy with action_taken "none"; with missing tables it runs the
migrations and re-checks, reporting healthy with action_taken
"migrations_run" when the re-check passes, unhealthy (with the same
action_taken and a distinct message) when tables are still missing, and
unhealthy with action_taken "migrations_failed" when the migration run
itself was not healthy; a tables check that is itself unhealthy falls
through to a plain unhealthy result. -/
def ensure_database_ready (w : World) : ReadyResult × World :=
  let connection_check := check_database_connection w.conn
  if connection_check.status ≠ .healthy then
    ({ status := .unhealthy
       message := "Невозможно подключиться к базе данных"
       action_taken := none }, w)
  else
    let tables_check := check_database_tables w.tables w.inspectErr
    if tables_check.status = .healthy then
      ({ status := .healthy
         message := "База данных готова к работе"
         action_taken := some "none" }, w)
    else if tables_check.status = .warning
        && !tables_check.missing_tables.isEmpty then
      let migration_result := run_database_migrations w.migration
      let w' := w.afterMigrations
      if migration_result.status = .healthy then
        let final_check := check_database_tables w'.tables w'.inspectErr
        if final_check.status = .healthy then
          ({ status := .healthy
             message := "База данных подготовлена успешно с помощью миграций"
             action_taken := some "migrations_run" }, w')
        else
          ({ status := .unhealthy
             message := "Миграции выполнены, но таблицы все еще отсутствуют"
             action_taken := some "migrations_run" }, w')
      else
        ({ status := .unhealthy
           message := "Не удалось выполнить миграции базы данных"
           action_taken := some "migrations_failed" }, w')
    else
      ({ status := .unhealthy
         message := "База данных не готова к работе"
         action_taken := none }, w)

/-- Folding of the six check statuses into the overall status, as done by
the loop in perform_full_health_check: any unhealthy check makes the whole
result unhealthy; otherwise any warning makes it warning. -/
def overallOf (statuses : List HealthStatus) : HealthStatus :=
  if statuses.contains .unhealthy then .unhealthy
  else if statuses.contains .warning then .warning
  else .healthy

/-- The report returned by perform_full_health_check: the six individual
check results and the folded overall status. -/
structure FullReport where
  overall_status : HealthStatus
  environment : CheckResult
  database_connection : CheckResult
  database_tables : TablesResult
  database_permissions : CheckResult
  superadmin_user : SuperadminResult
  application_settings : CheckResult
deriving DecidableEq

/-- ApplicationHealthChecker.perform_full_health_check
(src/database/health_check.py): run all six checks unconditionally (the
superadmin check may insert a row into the store) and fold their statuses
into the overall status. -/
def perform_full_health_check (w : World) : FullReport × World :=
  let environment := check_environment_variables w.env
  let database_connection := check_database_connection w.conn
  let database_tables := check_database_tables w.tables w.inspectErr
  let database_permissions := check_database_permissions w.perms
  let (superadmin_user, store') := check_and_create_superadmin w.hashPassword w.store
  let application_settings := check_application_settings w.env
  ({ overall_status := overallOf
       [environment.status, database_connection.status, database_tables.status,
        database_permissions.status, superadmin_user.status,
        application_settings.status]
     environment := environment
     database_connection := database_connection
     database_tables := database_tables
     database_permissions := database_permissions
     superadmin_user := superadmin_user
     application_settings := application_settings },
   { w with store := store' })

/-- check_application_health (src/database/health_check.py): true exactly
when the overall status of a full health check is healthy. -/
def check_application_health (w : World) : Bool × World :=
  let (result, w') := perform_full_health_check w
  (result.overall_status == .healthy, w')

/-- ensure_application_ready (src/database/health_check.py): raise (here:
return an error message) when the environment check is not healthy; raise
when the settings check is unhealthy; run ensure_database_ready and raise
when it is not healthy; finally raise unless check_application_health
holds. -/
def ensure_application_ready (w : World) : Except String World :=
  let env_check := check_environment_variables w.env
  if env_check.status ≠ .healthy then
    .error ("Приложение не готово к работе: " ++ env_check.message)
  else
    let settings_check := check_application_settings w.env
    if settings_check.status = .unhealthy then
      .error ("Приложение не готово к работе: " ++ settings_check.message)
    else
      let (db_ready_result, w₁) := ensure_database_ready w
      if db_ready_result.status ≠ .healthy then
        .error ("Приложение не готово к работе: " ++ db_ready_result.message)
      else
        let (healthy, w₂) := check_application_health w₁
        if healthy then .ok w₂
        else .error "Приложение не готово к работе после всех проверок."

/-- A process environment satisfying every check: all seven required
variables set and non-blank, a valid APP_ENV, a 32-character SECRET_KEY
and a valid DEBUG flag. -/
def goodEnv : Env :=
  [("POSTGRES_DB", "audioscrobe"), ("POSTGRES_USER", "postgres"),
   ("POSTGRES_PASSWORD", "secret"), ("DB_HOST", "localhost"),
   ("SECRET_KEY", "0123456789abcdef0123456789abcdef"), ("DEBUG", "true"),
   ("APP_ENV", "development")]

/-- goodEnv with DEBUG set to a value that is present and non-blank (so
the environment-variable check passes) but outside true/false (so the
settings check collects an issue and reports warning). -/
def warnEnv : Env :=
  [("POSTGRES_DB", "audioscrobe"), ("POSTGRES_USER", "postgres"),
   ("POSTGRES_PASSWORD", "secret"), ("DB_HOST", "localhost"),
   ("SECRET_KEY", "0123456789abcdef0123456789abcdef"), ("DEBUG", "yes"),
   ("APP_ENV", "development")]

/-- A store whose only user is an admin named "superadmin". -/
def adminStore : Store :=
  { Store.empty with users := [⟨1, "superadmin", "hash", true⟩] }

/-- A store whose only user is named "superadmin" but has the admin flag
cleared. -/
def plainSuperStore : Store :=
  { Store.empty with users := [⟨1, "superadmin", "hash", false⟩] }

/-- The number of privileged accounts named "superadmin" in a store: the
rows matching the lookup predicate of check_and_create_superadmin. -/
def countSuperadmins (s : Store) : Nat :=
  (s.users.filter (fun u => u.username == "superadmin" && u.is_admin)).length

/-- A sample user owning the sample audio file. -/
def sampleUser : UserRec := ⟨7, "alice", "hash", false⟩

/-- A sample audio file owned by sampleUser. -/
def sampleAudioFile : AudioFileRec :=
  ⟨1, some 7, some "a.wav", some "orig.wav", some "/data/a.wav", some "wav",
   some 100, none, some .uploaded, none⟩

/-- A sample transcription of sampleAudioFile. -/
def sampleTranscription : TranscriptionRec :=
  ⟨10, 1, some 3, some "en", some "hello", some 0, some 1, some .completed,
   none, none⟩

/-- A sample translation of sampleTranscription. -/
def sampleTranslation : TranslationRec :=
  ⟨20, 10, some 3, some "hello", some "привет", some 0, some 1,
   some .completed, none, none⟩

/-- A sample summary of sampleTranslation. -/
def sampleSummary : SummaryRec :=
  ⟨30, 20, some 3, some "sum", some "итог", some 0, some 1, some .completed,
   none⟩

/-- A store holding the full AudioFile → Transcription → Translation →
Summary derivation chain, and no AI models. -/
def sampleStore : Store :=
  { users := [sampleUser], audioFiles := [sampleAudioFile],
    transcriptions := [sampleTranscription],
    translations := [sampleTranslation], summaries := [sampleSummary],
    aiModels := [] }

/-- A world in which every check passes: valid environment, reachable
store with the complete table set, write permissions, and an existing
admin superadmin. -/
def readyWorld : World :=
  { env := goodEnv, conn := .ok, tables := expectedTables,
    inspectErr := none, migration := .exited 0 "" "",
    migratedTables := expectedTables, migratedInspectErr := none,
    perms := none, store := adminStore, hashPassword := fun p => p }

/-- readyWorld with most tables missing: the migration tool exits 0 and
produces the complete table set. -/
def migrationWorld : World := { readyWorld with tables := ["users"] }

/-- readyWorld with the settings check degraded to warning. -/
def warnWorld : World := { readyWorld with env := warnEnv }

/-- The ids of the transcriptions that reference a given audio file and
are therefore removed by its cascade delete. -/
def cascadeTranscriptionIds (s : Store) (fid : Nat) : List Nat :=
  (s.transcriptions.filter (fun t => t.audio_file_id = fid)).map (fun t => t.id)

/-- The ids of the translations that reference one of the given
transcriptions and are therefore removed by their cascade delete. -/
def cascadeTranslationIds (s : Store) (trIds : List Nat) : List Nat :=
  (s.translations.filter (fun t => t.transcription_id ∈ trIds)).map (fun t => t.id)

lemma deleteAudioFileRow_transcriptions (s : Store) (fid : Nat) :
    (deleteAudioFileRow s fid).transcriptions =
      s.transcriptions.filter (fun t => t.id ∉ cascadeTranscriptionIds s fid) := rfl

lemma deleteAudioFileRow_translations (s : Store) (fid : Nat) :
    (deleteAudioFileRow s fid).translations =
      s.translations.filter (fun t =>
        t.id ∉ cascadeTranslationIds s (cascadeTranscriptionIds s fid)) := rfl

lemma deleteAudioFileRow_summaries (s : Store) (fid : Nat) :
    (deleteAudioFileRow s fid).summaries =
      s.summaries.filter (fun m =>
        m.translation_id ∉ cascadeTranslationIds s (cascadeTranscriptionIds s fid)) := rfl

lemma deleteTranscriptionRows_transcriptions (s : Store) (trIds : List Nat) :
    (deleteTranscriptionRows s trIds).transcriptions =
      s.transcriptions.filter (fun t => t.id ∉ trIds) := rfl

lemma deleteTranscriptionRows_translations (s : Store) (trIds : List Nat) :
    (deleteTranscriptionRows s trIds).translations =
      s.translations.filter (fun t => t.id ∉ cascadeTranslationIds s trIds) := rfl

lemma deleteTranscriptionRows_summaries (s : Store) (trIds : List Nat) :
    (deleteTranscriptionRows s trIds).summaries =
      s.summaries.filter (fun m =>
        m.translation_id ∉ cascadeTranslationIds s trIds) := rfl

lemma mem_cascadeTranscriptionIds {s : Store} {fid : Nat} {t : TranscriptionRec}
    (ht : t ∈ s.transcriptions) (h : t.audio_file_id = fid) :
    t.id ∈ cascadeTranscriptionIds s fid := by
  exact List.mem_map.2 ⟨t, List.mem_filter.2 ⟨ht, by simp [h]⟩, rfl⟩

lemma mem_cascadeTranslationIds {s : Store} {trIds : List Nat}
    {tr : TranslationRec} (htr : tr ∈ s.translations)
    (h : tr.transcription_id ∈ trIds) :
    tr.id ∈ cascadeTranslationIds s trIds := by
  exact List.mem_map.2 ⟨tr, List.mem_filter.2 ⟨htr, by simp [h]⟩, rfl⟩

lemma not_mem_filter_of_pred_false {α : Type} {p : α → Bool} {x : α}
    (l : List α) (h : p x = false) : x ∉ l.filter p := by
  intro hx
  have := (List.mem_filter.1 hx).2
  rw [h] at this
  exact Bool.false_ne_true this

/-- C2: deleting an AudioFile removes every Transcription referencing it,
every Translation referencing one of those Transcriptions, and every
Summary referencing one of those Translations; the same cascade holds for
a delete starting at a Transcription or at a Translation. -/
theorem c2_cascade_delete_chain (s : Store) (fid : Nat) :
    (∀ t ∈ s.transcriptions, t.audio_file_id = fid →
      t ∉ (deleteAudioFileRow s fid).transcriptions) ∧
    (∀ t ∈ s.transcriptions, ∀ tr ∈ s.translations,
      t.audio_file_id = fid → tr.transcription_id = t.id →
      tr ∉ (deleteAudioFileRow s fid).translations) ∧
    (∀ t ∈ s.transcriptions, ∀ tr ∈ s.translations, ∀ m ∈ s.summaries,
      t.audio_file_id = fid → tr.transcription_id = t.id →
      m.translation_id = tr.id → m ∉ (deleteAudioFileRow s fid).summaries) ∧
    (∀ tid s', delete_transcription s tid = .ok s' →
      (∀ t ∈ s.transcriptions, t.id = tid → t ∉ s'.transcriptions) ∧
      (∀ tr ∈ s.translations, tr.transcription_id = tid →
        tr ∉ s'.translations) ∧
      (∀ tr ∈ s.translations, ∀ m ∈ s.summaries, tr.transcription_id = tid →
        m.translation_id = tr.id → m ∉ s'.summaries)) ∧
    (∀ tid s', delete_translation s tid = .ok s' →
      (∀ tr ∈ s.translations, tr.id = tid → tr ∉ s'.translations) ∧
      (∀ m ∈ s.summaries, m.translation_id = tid → m ∉ s'.summaries)) := by
  refine ⟨?_, ?_, ?_, ?_, ?_⟩
  · intro t ht hfid
    rw [deleteAudioFileRow_transcriptions]
    exact not_mem_filter_of_pred_false _
      (by simp [mem_cascadeTranscriptionIds ht hfid])
  · intro t ht tr htr hfid href
    rw [deleteAudioFileRow_translations]
    have hmem : tr.id ∈ cascadeTranslationIds s (cascadeTranscriptionIds s fid) :=
      mem_cascadeTranslationIds htr
        (href ▸ mem_cascadeTranscriptionIds ht hfid)
    exact not_mem_filter_of_pred_false _ (by simp [hmem])
  · intro t ht tr htr m hm hfid href₁ href₂
    rw [deleteAudioFileRow_summaries]
    have hmem : m.translation_id ∈
        cascadeTranslationIds s (cascadeTranscriptionIds s fid) :=
      href₂ ▸ mem_cascadeTranslationIds htr
        (href₁ ▸ mem_cascadeTranscriptionIds ht hfid)
    exact not_mem_filter_of_pred_false _ (by simp [hmem])
  · intro tid s' hdel
    have hs' : s' = deleteTranscriptionRows s [tid] := by
      cases hfind : s.transcriptions.find? (fun t => t.id == tid) with
      | none => simp [delete_transcription, hfind] at hdel
      | some t =>
          simp [delete_transcription, hfind] at hdel
          exact hdel.symm
    subst hs'
    refine ⟨?_, ?_, ?_⟩
    · intro t ht hid
      rw [deleteTranscriptionRows_transcriptions]
      exact not_mem_filter_of_pred_false _ (by simp [hid])
    · intro tr htr href
      rw [deleteTranscriptionRows_translations]
      have hmem : tr.id ∈ cascadeTranslationIds s [tid] :=
        mem_cascadeTranslationIds htr (by simp [href])
      exact not_mem_filter_of_pred_false _ (by simp [hmem])
    · intro tr htr m hm href₁ href₂
      rw [deleteTranscriptionRows_summaries]
      have hmem : m.translation_id ∈ cascadeTranslationIds s [tid] :=
        href₂ ▸ mem_cascadeTranslationIds htr (by simp [href₁])
      exact not_mem_filter_of_pred_false _ (by simp [hmem])
  · intro tid s' hdel
    have hs' : s' = deleteTranslationRows s [tid] := by
      cases hfind : s.translations.find? (fun t => t.id == tid) with
      | none => simp [delete_translation, hfind] at hdel
      | some t =>
          simp [delete_translation, hfind] at hdel
          exact hdel.symm
    subst hs'
    constructor
    · intro tr htr hid
      exact not_mem_filter_of_pred_false _ (by simp [hid])
    · intro m hm href
      exact not_mem_filter_of_pred_false _ (by simp [href])

/-- Witness for C2 at the sample derivation chain: deleting audio file 1
removes the transcription, the translation and the summary of the chain,
and the transcription- and translation-level deletes cascade likewise. -/
theorem c2_cascade_delete_chain_witness :
    sampleTranscription ∉ (deleteAudioFileRow sampleStore 1).transcriptions ∧
    sampleTranslation ∉ (deleteAudioFileRow sampleStore 1).translations ∧
    sampleSummary ∉ (deleteAudioFileRow sampleStore 1).summaries :=
  ⟨(c2_cascade_delete_chain sampleStore 1).1 sampleTranscription
      (by decide) (by decide),
   (c2_cascade_delete_chain sampleStore 1).2.1 sampleTranscription
      (by decide) sampleTranslation (by decide) (by decide) (by decide),
   (c2_cascade_delete_chain sampleStore 1).2.2.1 sampleTranscription
      (by decide) sampleTranslation (by decide) sampleSummary (by decide)
      (by decide) (by decide) (by decide)⟩

/-- C3: when deleting a User succeeds, every AudioFile row owned by that
user is still present afterwards with every field unchanged except
user_id, which becomes null; no audio file row is deleted at all. -/
theorem c3_user_delete_nulls_owner (s : Store) (uid : Nat) (s' : Store)
    (a : AudioFileRec) (hdel : delete_user s uid = .ok s')
    (ha : a ∈ s.audioFiles) (hown : a.user_id = some uid) :
    { a with user_id := none } ∈ s'.audioFiles ∧
    s'.audioFiles.length = s.audioFiles.length := by
  cases hfind : s.users.find? (fun u => u.id == uid) with
  | none => simp [delete_user, hfind] at hdel
  | some u =>
      simp only [delete_user, hfind, Except.ok.injEq] at hdel
      subst hdel
      constructor
      · exact List.mem_map.2 ⟨a, ha, by simp [hown]⟩
      · exact List.length_map _ _

/-- Witness for C3 at the sample store: deleting user 7 keeps the audio
file it owns, with only the owner reference cleared. -/
theorem c3_user_delete_nulls_owner_witness :
    { sampleAudioFile with user_id := none } ∈
      ({ sampleStore with
          users := [], audioFiles := [{ sampleAudioFile with user_id := none }] }
        : Store).audioFiles ∧
    ({ sampleStore with
        users := [], audioFiles := [{ sampleAudioFile with user_id := none }] }
      : Store).audioFiles.length = sampleStore.audioFiles.length :=
  c3_user_delete_nulls_owner sampleStore 7 _ sampleAudioFile (by rfl)
    (by simp [sampleStore]) (by rfl)

/-- C4 (amended): create_transcription validates only the AudioFile id —
a missing AudioFile yields a 404 and no insert; when the AudioFile exists,
no AIModel check occurs (the create request carries no AIModel id) and the
row is inserted without an AIModel reference, in violation of the declared
non-nullable columns of the transcriptions table. -/
theorem c4_create_transcription_checks_audio_file_only (s : Store)
    (req : TranscriptionCreate) :
    (s.audioFiles.find? (fun a => a.id == req.audio_file_id) = none →
      create_transcription s req = (.error 404, s)) ∧
    (∀ af, s.audioFiles.find? (fun a => a.id == req.audio_file_id) = some af →
      ∃ row, create_transcription s req =
          (.ok row, { s with transcriptions := s.transcriptions ++ [row] }) ∧
        row.ai_model_id = none ∧ transcriptionRowNotNull row = false) := by
  constructor
  · intro h
    simp [create_transcription, h]
  · intro af h
    refine ⟨{ id := nextTranscriptionId s, audio_file_id := req.audio_file_id,
              ai_model_id := none, language := some req.language,
              text_transcription := none, start_time := none, end_time := none,
              status := some .pending, error_text := none,
              confidence := none }, ?_, rfl, rfl⟩
    simp [create_transcription, h]

/-- Counterexample to C4 as stated: in the sample store there is no
AIModel at all, so no referenced AIModel id can resolve; yet creating a
transcription for the existing audio file 1 does not fail with 404 — it
succeeds and inserts a row (with no AIModel reference). -/
theorem c4_counterexample_no_ai_model_check :
    sampleStore.aiModels = [] ∧
    (create_transcription sampleStore ⟨1, "auto"⟩).1 =
      .ok ⟨11, 1, none, some "auto", none, none, none, some .pending, none,
        none⟩ ∧
    (create_transcription sampleStore ⟨1, "auto"⟩).2.transcriptions.length =
      sampleStore.transcriptions.length + 1 :=
  ⟨rfl, rfl, rfl⟩

/-- Witness for the amended C4 at the sample store: id 999 does not
resolve and yields 404 with the store unchanged; id 1 resolves and the
insert happens with no AIModel reference. -/
theorem c4_create_transcription_checks_audio_file_only_witness :
    create_transcription sampleStore ⟨999, "auto"⟩ = (.error 404, sampleStore) ∧
    ∃ row, create_transcription sampleStore ⟨1, "auto"⟩ =
        (.ok row,
         { sampleStore with
            transcriptions := sampleStore.transcriptions ++ [row] }) ∧
      row.ai_model_id = none ∧ transcriptionRowNotNull row = false :=
  ⟨(c4_create_transcription_checks_audio_file_only sampleStore
      ⟨999, "auto"⟩).1 (by rfl),
   (c4_create_transcription_checks_audio_file_only sampleStore
      ⟨1, "auto"⟩).2 sampleAudioFile (by rfl)⟩

/-- C10: AudioService.create_audio_record never rejects an invalid status:
for every status string outside the four upload-status values it returns
normally and stores the record with the default status "uploaded". -/
theorem c10_create_audio_record_total_in_status (s : Store)
    (filename original_filename : String) (file_size : Nat)
    (user_id : Option Nat) (duration : Option Rat) (status : String)
    (h₁ : status ≠ "uploaded") (h₂ : status ≠ "processing")
    (h₃ : status ≠ "done") (h₄ : status ≠ "error") :
    (create_audio_record s filename original_filename file_size user_id
        duration status).1.status = some .uploaded ∧
    (create_audio_record s filename original_filename file_size user_id
        duration status).2.audioFiles =
      s.audioFiles ++ [(create_audio_record s filename original_filename
        file_size user_id duration status).1] := by
  have h : statusOfString status = none := by
    simp [statusOfString, h₁, h₂, h₃, h₄]
  constructor
  · simp [create_audio_record, h]
  · simp [create_audio_record, h]

/-- Witness for C10: creating an audio record with the invalid status
"bogus" stores it with status "uploaded". -/
theorem c10_create_audio_record_total_in_status_witness :
    (create_audio_record sampleStore "b.wav" "orig-b.wav" 5 none none
        "bogus").1.status = some .uploaded ∧
    (create_audio_record sampleStore "b.wav" "orig-b.wav" 5 none none
        "bogus").2.audioFiles =
      sampleStore.audioFiles ++ [(create_audio_record sampleStore "b.wav"
        "orig-b.wav" 5 none none "bogus").1] :=
  c10_create_audio_record_total_in_status sampleStore "b.wav" "orig-b.wav" 5
    none none "bogus" (by decide) (by decide) (by decide) (by decide)

/-- C7: the AIModelCreate input validation accepts the operation field
exactly when it is one of the three literals "transcription",
"translation", "summary"; a validated input stores an Operation whose
value is that literal; and every Operation value a stored AIModel row can
carry is one of the three literals. -/
theorem c7_operation_closed_set (n p op : String) :
    ((validate_ai_model_create n p op).isSome ↔
      (op = "transcription" ∨ op = "translation" ∨ op = "summary")) ∧
    (∀ m, validate_ai_model_create n p op = some m →
      operationToString m.operation = op) ∧
    (∀ r : AIModelRec, operationToString r.operation = "transcription" ∨
      operationToString r.operation = "translation" ∨
      operationToString r.operation = "summary") := by
  refine ⟨?_, ?_, ?_⟩
  · simp only [validate_ai_model_create, operationOfString]
    split_ifs with h₁ h₂ h₃ <;> simp_all
  · intro m hm
    simp only [validate_ai_model_create, operationOfString] at hm
    split_ifs at hm with h₁ h₂ h₃ <;> simp at hm
    · rw [← hm, h₁]; rfl
    · rw [← hm, h₂]; rfl
    · rw [← hm, h₃]; rfl
  · intro r
    cases hr : r.operation <;> simp [operationToString]

/-- Witness for C7: "translation" is accepted and stored as the matching
Operation value; "embedding" is rejected. -/
theorem c7_operation_closed_set_witness :
    (validate_ai_model_create "whisper" "/m" "translation").isSome ∧
    ¬ (validate_ai_model_create "whisper" "/m" "embedding").isSome :=
  ⟨(c7_operation_closed_set "whisper" "/m" "translation").1.2
      (Or.inr (Or.inl rfl)),
   fun h => by
    have := (c7_operation_closed_set "whisper" "/m" "embedding").1.1 h
    simp at this⟩

lemma usernamesUniqueB_cons {x : UserRec} {rest : List UserRec}
    (h : usernamesUniqueB (x :: rest) = true) :
    (∀ v ∈ rest, v.username ≠ x.username) ∧ usernamesUniqueB rest = true := by
  rw [usernamesUniqueB, Bool.and_eq_true, List.all_eq_true] at h
  exact ⟨fun v hv => by
    have := h.1 v hv
    simpa using this, h.2⟩

lemma unique_username_inj {l : List UserRec} {u v : UserRec}
    (h : usernamesUniqueB l = true) (hu : u ∈ l) (hv : v ∈ l)
    (hname : u.username = v.username) : u = v := by
  induction l with
  | nil => cases hu
  | cons x rest ih =>
      obtain ⟨hall, hrest⟩ := usernamesUniqueB_cons h
      rcases List.mem_cons.1 hu with hux | hur
      · rw [hux] at hname ⊢
        rcases List.mem_cons.1 hv with hvx | hvr
        · exact hvx.symm
        · exact absurd hname.symm (hall v hvr)
      · rcases List.mem_cons.1 hv with hvx | hvr
        · rw [hvx] at hname ⊢
          exact absurd hname (hall u hur)
        · exact ih hrest hur hvr

lemma filter_superadmin_length_one {l : List UserRec} {u : UserRec}
    (h : usernamesUniqueB l = true) (hu : u ∈ l)
    (hname : u.username = "superadmin") (hadmin : u.is_admin = true) :
    (l.filter (fun v => v.username == "superadmin" && v.is_admin)).length
      = 1 := by
  induction l with
  | nil => cases hu
  | cons x rest ih =>
      obtain ⟨hall, hrest⟩ := usernamesUniqueB_cons h
      rcases List.mem_cons.1 hu with hux | hur
      · subst hux
        have hrestnil :
            rest.filter (fun v => v.username == "superadmin" && v.is_admin)
              = [] := by
          rw [List.filter_eq_nil_iff]
          intro v hv hpv
          rw [Bool.and_eq_true, beq_iff_eq] at hpv
          exact hall v hv (hpv.1.trans hname.symm)
        simp [List.filter_cons, hname, hadmin, hrestnil]
      · have hpx : (x.username == "superadmin" && x.is_admin) = false := by
          by_contra hne
          rw [Bool.not_eq_false, Bool.and_eq_true, beq_iff_eq] at hne
          exact hall u hur (hname.trans hne.1.symm)
        simp [List.filter_cons, hpx]
        exact ih hrest hur

lemma find?_append_singleton {α : Type} {p : α → Bool} {l : List α}
    (h : l.find? p = none) (x : α) (hx : p x = true) :
    (l ++ [x]).find? p = some x := by
  induction l with
  | nil => simp [List.find?_cons, hx]
  | cons a l ih =>
      cases hpa : p a with
      | true => rw [List.find?_cons_of_pos _ hpa] at h; cases h
      | false =>
          have hpa' : ¬ p a = true := by simp [hpa]
          rw [List.find?_cons_of_neg _ hpa'] at h
          rw [List.cons_append, List.find?_cons_of_neg _ hpa']
          exact ih h

/-- C5 (amended): from every state whose usernames are unique (as the
store enforces) and in which every user named "superadmin" carries the
admin flag, running check_and_create_superadmin twice yields exactly one
privileged account named "superadmin" both times, and the second run
reports healthy, takes no action, and leaves the store unchanged. -/
theorem c5_superadmin_idempotent (hash : String → String) (s : Store)
    (huniq : usernamesUniqueB s.users = true)
    (hnoplain : ∀ u ∈ s.users, u.username = "superadmin" →
      u.is_admin = true) :
    countSuperadmins (check_and_create_superadmin hash s).2 = 1 ∧
    countSuperadmins (check_and_create_superadmin hash
      (check_and_create_superadmin hash s).2).2 = 1 ∧
    (check_and_create_superadmin hash
      (check_and_create_superadmin hash s).2).1.status = .healthy ∧
    (check_and_create_superadmin hash
      (check_and_create_superadmin hash s).2).1.action_taken = "none" ∧
    (check_and_create_superadmin hash
      (check_and_create_superadmin hash s).2).2 =
      (check_and_create_superadmin hash s).2 := by
  cases hfind : s.users.find?
      (fun u => u.username == "superadmin" && u.is_admin) with
  | some u =>
      have hu := List.mem_of_find?_eq_some hfind
      have hpu := List.find?_some hfind
      rw [Bool.and_eq_true, beq_iff_eq] at hpu
      have hcount : countSuperadmins s = 1 :=
        filter_superadmin_length_one huniq hu hpu.1 hpu.2
      simp only [check_and_create_superadmin, hfind]
      refine ⟨hcount, hcount, ?_, ?_, ?_⟩ <;> trivial
  | none =>
      have hnone : ∀ u ∈ s.users,
          ¬ (u.username == "superadmin" && u.is_admin) = true :=
        List.find?_eq_none.1 hfind
      have hnosuper : ∀ u ∈ s.users, u.username ≠ "superadmin" := by
        intro u hu hname
        exact hnone u hu (by simp [hname, hnoplain u hu hname])
      have hany : (s.users.any (fun u => u.username == "superadmin"))
          = false := by
        rw [← Bool.not_eq_true, List.any_eq_true]
        rintro ⟨u, hu, hp⟩
        exact hnosuper u hu (by simpa using hp)
      have hfilnil :
          s.users.filter (fun v => v.username == "superadmin" && v.is_admin)
            = [] := by
        rw [List.filter_eq_nil_iff]
        exact hnone
      simp only [check_and_create_superadmin, hfind, hany, Bool.false_eq_true,
        if_false]
      have hfind₂ : (s.users ++
          [{ id := nextUserId s, username := "superadmin",
             password_hash := hash "superadmin", is_admin := true
             : UserRec }]).find?
            (fun u => u.username == "superadmin" && u.is_admin) =
          some { id := nextUserId s, username := "superadmin",
                 password_hash := hash "superadmin", is_admin := true } :=
        find?_append_singleton hfind _ (by simp)
      have hcount : countSuperadmins
          { s with users := s.users ++
              [{ id := nextUserId s, username := "superadmin",
                 password_hash := hash "superadmin", is_admin := true }] }
            = 1 := by
        simp [countSuperadmins, List.filter_append, hfilnil]
      simp only [check_and_create_superadmin, hfind₂]
      refine ⟨hcount, hcount, ?_, ?_, ?_⟩ <;> trivial

/-- Witness for the amended C5 at the empty store: the first run creates
the superadmin, the second finds it, and both states hold exactly one
privileged account named "superadmin". -/
theorem c5_superadmin_idempotent_witness :
    countSuperadmins
      (check_and_create_superadmin (fun p => p) Store.empty).2 = 1 ∧
    countSuperadmins (check_and_create_superadmin (fun p => p)
      (check_and_create_superadmin (fun p => p) Store.empty).2).2 = 1 ∧
    (check_and_create_superadmin (fun p => p)
      (check_and_create_superadmin (fun p => p) Store.empty).2).1.status
        = .healthy ∧
    (check_and_create_superadmin (fun p => p)
      (check_and_create_superadmin (fun p => p)
        Store.empty).2).1.action_taken = "none" ∧
    (check_and_create_superadmin (fun p => p)
      (check_and_create_superadmin (fun p => p) Store.empty).2).2 =
      (check_and_create_superadmin (fun p => p) Store.empty).2 :=
  c5_superadmin_idempotent (fun p => p) Store.empty (by rfl)
    (by intro u hu; simp [Store.empty] at hu)

/-- Counterexample to C5 as stated ("starting from any state"): in the
state holding a non-admin user named "superadmin", the first run returns
unhealthy and changes nothing, and both runs leave zero privileged
accounts named "superadmin" — not exactly one. -/
theorem c5_counterexample_plain_superadmin :
    (check_and_create_superadmin (fun p => p) plainSuperStore).1.status
      = .unhealthy ∧
    (check_and_create_superadmin (fun p => p) plainSuperStore).2
      = plainSuperStore ∧
    countSuperadmins
      (check_and_create_superadmin (fun p => p) plainSuperStore).2 = 0 ∧
    countSuperadmins (check_and_create_superadmin (fun p => p)
      (check_and_create_superadmin (fun p => p) plainSuperStore).2).2 = 0 :=
  ⟨rfl, rfl, rfl, rfl⟩

/-- C9: with a non-admin user named "superadmin" in the store, the lookup
(which requires both the name and the admin flag) misses, the insert of a
second "superadmin" row violates username uniqueness, and the routine
returns unhealthy with action_taken "failed", leaving the store
unchanged. -/
theorem c9_superadmin_lookup_requires_admin_flag (hash : String → String)
    (s : Store) (u : UserRec) (huniq : usernamesUniqueB s.users = true)
    (hu : u ∈ s.users) (hname : u.username = "superadmin")
    (hadmin : u.is_admin = false) :
    (check_and_create_superadmin hash s).1.status = .unhealthy ∧
    (check_and_create_superadmin hash s).1.action_taken = "failed" ∧
    (check_and_create_superadmin hash s).2 = s := by
  have hfind : s.users.find?
      (fun u => u.username == "superadmin" && u.is_admin) = none := by
    rw [List.find?_eq_none]
    intro v hv hpv
    rw [Bool.and_eq_true, beq_iff_eq] at hpv
    have : v = u := unique_username_inj huniq hv hu (hpv.1.trans hname.symm)
    rw [this, hadmin] at hpv
    exact Bool.false_ne_true hpv.2
  have hany : (s.users.any (fun u => u.username == "superadmin")) = true :=
    List.any_eq_true.2 ⟨u, hu, by simp [hname]⟩
  simp [check_and_create_superadmin, hfind, hany]

/-- Witness for C9 at the store holding only a non-admin "superadmin". -/
theorem c9_superadmin_lookup_requires_admin_flag_witness :
    (check_and_create_superadmin (fun p => p) plainSuperStore).1.status
      = .unhealthy ∧
    (check_and_create_superadmin (fun p => p)
      plainSuperStore).1.action_taken = "failed" ∧
    (check_and_create_superadmin (fun p => p) plainSuperStore).2
      = plainSuperStore :=
  c9_superadmin_lookup_requires_admin_flag (fun p => p) plainSuperStore
    ⟨1, "superadmin", "hash", false⟩ (by rfl)
    (by simp [plainSuperStore, Store.empty]) (by rfl) (by rfl)

/-- C6 (amended): with a successful inspection, check_database_tables is
healthy exactly when every declared table is present in the store (extra
tables do not matter); it is warning — never unhealthy — whenever a
declared table is missing; and extra tables are only recorded in the
details. -/
theorem c6_check_database_tables_status (existing : List String) :
    ((check_database_tables existing none).status = .healthy ↔
      ∀ t ∈ expectedTables, t ∈ existing) ∧
    ((∃ t ∈ expectedTables, t ∉ existing) →
      (check_database_tables existing none).status = .warning) ∧
    ((check_database_tables existing none).status = .healthy ∨
      (check_database_tables existing none).status = .warning) ∧
    (check_database_tables existing none).extra_tables =
      existing.filter (fun t => t ∉ expectedTables) := by
  simp only [check_database_tables]
  split_ifs with h
  · rw [List.isEmpty_iff, List.filter_eq_nil_iff] at h
    have hall : ∀ t ∈ expectedTables, t ∈ existing := by
      intro t ht
      have := h t ht
      simpa using this
    refine ⟨iff_of_true rfl hall, ?_, Or.inl rfl, rfl⟩
    rintro ⟨t, ht, hnt⟩
    exact absurd (hall t ht) hnt
  · rw [List.isEmpty_iff] at h
    have hne : ∃ t ∈ expectedTables, t ∉ existing := by
      rcases List.exists_mem_of_ne_nil _ h with ⟨t, ht⟩
      have := List.mem_filter.1 ht
      exact ⟨t, this.1, by simpa using this.2⟩
    refine ⟨?_, fun _ => rfl, Or.inr rfl, rfl⟩
    constructor
    · intro hcontr
      exact absurd hcontr (by simp)
    · intro hall
      rcases hne with ⟨t, ht, hnt⟩
      exact absurd (hall t ht) hnt

/-- Counterexample to C6 as stated: with the store holding every declared
table plus "alembic_version", the table sets are not equal, yet the check
reports healthy — so healthy does not hold exactly when the sets are
equal. -/
theorem c6_counterexample_extra_table :
    (check_database_tables (expectedTables ++ ["alembic_version"])
        none).status = .healthy ∧
    "alembic_version" ∈ expectedTables ++ ["alembic_version"] ∧
    "alembic_version" ∉ expectedTables :=
  ⟨by decide, by decide, by decide⟩

/-- Witness for the amended C6: with only the "users" table present the
check is warning; with all declared tables present plus an extra one it is
healthy, and the extra table is reported in the details. -/
theorem c6_check_database_tables_status_witness :
    (check_database_tables ["users"] none).status = .warning ∧
    (check_database_tables (expectedTables ++ ["alembic_version"])
        none).status = .healthy ∧
    (check_database_tables (expectedTables ++ ["alembic_version"])
        none).extra_tables = ["alembic_version"] :=
  ⟨(c6_check_database_tables_status ["users"]).2.1
      ⟨"ai_models", by decide, by decide⟩,
   (c6_check_database_tables_status
      (expectedTables ++ ["alembic_version"])).1.2 (by decide),
   ((c6_check_database_tables_status
      (expectedTables ++ ["alembic_version"])).2.2.2).trans (by decide)⟩

lemma tables_warning_missing (existing : List String)
    (inspectErr : Option String)
    (h : (check_database_tables existing inspectErr).status = .warning) :
    (check_database_tables existing inspectErr).missing_tables.isEmpty
      = false := by
  cases inspectErr with
  | some e => simp [check_database_tables] at h
  | none =>
      simp only [check_database_tables] at h ⊢
      split_ifs at h ⊢ with hmiss
      all_goals simp_all

/-- C1: ensure_database_ready short-circuits unhealthy when the connection
check is not healthy (the result does not depend on the rest of the
world); reports healthy with action "none" when the tables check is
healthy; with missing tables, reports healthy with action "migrations_run"
when the migration subprocess exits 0 and the re-check passes; reports
unhealthy with action "migrations_failed" on a non-zero exit; and reports
unhealthy with the distinct message about tables still missing when the
migrations succeed but the re-check fails. -/
theorem c1_ensure_database_ready_orchestration (w : World) :
    ((check_database_connection w.conn).status ≠ .healthy →
      (ensure_database_ready w).1.status = .unhealthy ∧
      ∀ w' : World, w'.conn = w.conn →
        (ensure_database_ready w').1 = (ensure_database_ready w).1) ∧
    ((check_database_connection w.conn).status = .healthy →
      (check_database_tables w.tables w.inspectErr).status = .healthy →
      (ensure_database_ready w).1 =
        { status := .healthy, message := "База данных готова к работе",
          action_taken := some "none" }) ∧
    (∀ out err, (check_database_connection w.conn).status = .healthy →
      (check_database_tables w.tables w.inspectErr).status = .warning →
      w.migration = .exited 0 out err →
      (check_database_tables w.migratedTables w.migratedInspectErr).status
        = .healthy →
      (ensure_database_ready w).1 =
        { status := .healthy
          message := "База данных подготовлена успешно с помощью миграций"
          action_taken := some "migrations_run" }) ∧
    (∀ code out err, (check_database_connection w.conn).status = .healthy →
      (check_database_tables w.tables w.inspectErr).status = .warning →
      w.migration = .exited code out err → code ≠ 0 →
      (ensure_database_ready w).1 =
        { status := .unhealthy
          message := "Не удалось выполнить миграции базы данных"
          action_taken := some "migrations_failed" }) ∧
    (∀ out err, (check_database_connection w.conn).status = .healthy →
      (check_database_tables w.tables w.inspectErr).status = .warning →
      w.migration = .exited 0 out err →
      (check_database_tables w.migratedTables w.migratedInspectErr).status
        ≠ .healthy →
      (ensure_database_ready w).1 =
        { status := .unhealthy
          message := "Миграции выполнены, но таблицы все еще отсутствуют"
          action_taken := some "migrations_run" }) := by
  refine ⟨?_, ?_, ?_, ?_, ?_⟩
  · intro h
    constructor
    · simp [ensure_database_ready, h]
    · intro w' hconn'
      simp [ensure_database_ready, hconn', h]
  · intro h₁ h₂
    simp [ensure_database_ready, h₁, h₂]
  · intro out err h₁ h₂ hmig h₃
    have hmiss := tables_warning_missing w.tables w.inspectErr h₂
    simp [ensure_database_ready, run_database_migrations,
      World.afterMigrations, h₁, h₂, hmig, h₃, hmiss]
  · intro code out err h₁ h₂ hmig hcode
    have hmiss := tables_warning_missing w.tables w.inspectErr h₂
    simp [ensure_database_ready, run_database_migrations,
      World.afterMigrations, h₁, h₂, hmig, hcode, hmiss]
  · intro out err h₁ h₂ hmig h₃
    have hmiss := tables_warning_missing w.tables w.inspectErr h₂
    simp [ensure_database_ready, run_database_migrations,
      World.afterMigrations, h₁, h₂, hmig, h₃, hmiss]

/-- Witness for C1 over concrete worlds: an unreachable store
short-circuits unhealthy; a complete table set yields healthy with action
"none"; a migration run that creates the missing tables yields healthy
with action "migrations_run"; exit code 1 yields unhealthy with action
"migrations_failed"; a successful run that leaves tables missing yields
unhealthy with action "migrations_run" and the distinct message. -/
theorem c1_ensure_database_ready_orchestration_witness :
    (ensure_database_ready
        { readyWorld with conn := .err "down" }).1.status = .unhealthy ∧
    (ensure_database_ready readyWorld).1 =
      { status := .healthy, message := "База данных готова к работе",
        action_taken := some "none" } ∧
    (ensure_database_ready migrationWorld).1 =
      { status := .healthy
        message := "База данных подготовлена успешно с помощью миграций"
        action_taken := some "migrations_run" } ∧
    (ensure_database_ready
        { migrationWorld with migration := .exited 1 "" "boom" }).1 =
      { status := .unhealthy
        message := "Не удалось выполнить миграции базы данных"
        action_taken := some "migrations_failed" } ∧
    (ensure_database_ready
        { migrationWorld with migratedTables := ["users"] }).1 =
      { status := .unhealthy
        message := "Миграции выполнены, но таблицы все еще отсутствуют"
        action_taken := some "migrations_run" } :=
  ⟨((c1_ensure_database_ready_orchestration
      { readyWorld with conn := .err "down" }).1 (by decide)).1,
   (c1_ensure_database_ready_orchestration readyWorld).2.1
      (by decide) (by decide),
   (c1_ensure_database_ready_orchestration migrationWorld).2.2.1 "" ""
      (by decide) (by decide) (by decide) (by decide),
   (c1_ensure_database_ready_orchestration
      { migrationWorld with migration := .exited 1 "" "boom" }).2.2.2.1
      1 "" "boom" (by decide) (by decide) (by decide) (by decide),
   (c1_ensure_database_ready_orchestration
      { migrationWorld with migratedTables := ["users"] }).2.2.2.2 "" ""
      (by decide) (by decide) (by decide) (by decide)⟩

lemma overallOf_with_warning (a b c d e : HealthStatus) :
    overallOf [a, b, c, d, e, .warning] ≠ .healthy := by
  unfold overallOf
  split_ifs with h₁ h₂
  · simp
  · simp
  · exact absurd (List.elem_eq_true_of_mem (by simp)) h₂

lemma ensure_database_ready_env (w : World) :
    (ensure_database_ready w).2.env = w.env := by
  simp only [ensure_database_ready, World.afterMigrations]
  split_ifs <;> rfl

lemma ensure_database_ready_store (w : World) :
    (ensure_database_ready w).2.store = w.store := by
  simp only [ensure_database_ready, World.afterMigrations]
  split_ifs <;> rfl

lemma check_application_health_false_of_settings_warning (w : World)
    (h : (check_application_settings w.env).status = .warning) :
    (check_application_health w).1 = false := by
  simp only [check_application_health, perform_full_health_check, h]
  rw [beq_eq_false_iff_ne]
  exact overallOf_with_warning _ _ _ _ _

/-- C8 (amended): ensure_application_ready aborts when the environment
check is unhealthy; a warning settings check does not abort at the
settings stage — execution proceeds to the database stage — but the final
full health check demands a strictly healthy overall status, so when the
environment check is healthy, the settings check is warning and
ensure_database_ready is healthy, the startup still aborts, at the final
stage with the final-check message; it completes without raising exactly
when every stage passes, the final full health check included. -/
theorem c8_ensure_application_ready_gating (w : World) :
    ((check_environment_variables w.env).status ≠ .healthy →
      ensure_application_ready w =
        .error ("Приложение не готово к работе: "
          ++ (check_environment_variables w.env).message)) ∧
    ((check_environment_variables w.env).status = .healthy →
      (check_application_settings w.env).status = .warning →
      (ensure_database_ready w).1.status = .healthy →
      ensure_application_ready w =
        .error "Приложение не готово к работе после всех проверок.") ∧
    ((check_environment_variables w.env).status = .healthy →
      (check_application_settings w.env).status ≠ .unhealthy →
      (ensure_database_ready w).1.status = .healthy →
      (check_application_health (ensure_database_ready w).2).1 = true →
      ensure_application_ready w =
        .ok (check_application_health (ensure_database_ready w).2).2) := by
  refine ⟨?_, ?_, ?_⟩
  · intro h
    simp [ensure_application_ready, h]
  · intro h₁ h₂ h₃
    have h₂' : (check_application_settings w.env).status ≠ .unhealthy := by
      rw [h₂]; exact fun hc => by cases hc
    have hsettings₁ : (check_application_settings
        (ensure_database_ready w).2.env).status = .warning := by
      rw [ensure_database_ready_env]; exact h₂
    have hfalse := check_application_health_false_of_settings_warning
      (ensure_database_ready w).2 hsettings₁
    simp [ensure_application_ready, h₁, h₂', h₃, hfalse]
  · intro h₁ h₂ h₃ h₄
    simp [ensure_application_ready, h₁, h₂, h₃, h₄]

/-- Counterexample to C8 as stated: in warnWorld the environment check is
healthy, the settings check is warning (DEBUG is set to "yes") and
ensure_database_ready is healthy, yet ensure_application_ready does not
complete — it aborts at the final full health check. -/
theorem c8_counterexample_settings_warning_aborts :
    (check_environment_variables warnWorld.env).status = .healthy ∧
    (check_application_settings warnWorld.env).status = .warning ∧
    (ensure_database_ready warnWorld).1.status = .healthy ∧
    ensure_application_ready warnWorld =
      .error "Приложение не готово к работе после всех проверок." :=
  ⟨rfl, rfl, rfl, rfl⟩

/-- Witness for the amended C8: with an empty environment the startup
aborts with the environment message; in readyWorld every stage passes and
the startup completes. -/
theorem c8_ensure_application_ready_gating_witness :
    ensure_application_ready { readyWorld with env := ([] : Env) } =
      .error ("Приложение не готово к работе: "
        ++ (check_environment_variables ([] : Env)).message) ∧
    ensure_application_ready readyWorld =
      .ok (check_application_health (ensure_database_ready readyWorld).2).2 :=
  ⟨(c8_ensure_application_ready_gating
      { readyWorld with env := ([] : Env) }).1 (by decide),
   (c8_ensure_application_ready_gating readyWorld).2.2 (by decide)
      (by decide) (by decide) (by rfl)⟩
